import Mathlib

/-
  Verification of the TradeMe trading platform core against its specification.

  The Python source is shallowly embedded: floats become exact rationals,
  datetimes become rational hour counts (a calendar day is a 24-hour block),
  optional / nullable values become `Option`, database rows become structures
  and database tables become lists.  Presentational fields (log messages,
  reasoning strings) are omitted; every field that feeds back into control
  flow is kept.
-/

namespace TradeMe

/-- Truncation toward zero, the behaviour of the Python `int()` conversion
on a real number. -/
def int_trunc (q : ℚ) : ℤ :=
  if q < 0 then ⌈q⌉ else ⌊q⌋

/-- Rounding of a rational to the nearest integer with ties going to the even
integer, the behaviour of the Python builtin `round` on a non-tie value
(Python rounds floats; on the exact rational inputs used here the two agree
away from ties, and at ties both pick the even neighbour). -/
def round_half_even (q : ℚ) : ℤ :=
  if q - (⌊q⌋ : ℚ) < 1/2 then ⌊q⌋
  else if 1/2 < q - (⌊q⌋ : ℚ) then ⌊q⌋ + 1
  else if ⌊q⌋ % 2 = 0 then ⌊q⌋ else ⌊q⌋ + 1

/-- Rounding to `n` decimal places, the Python `round(x, n)`. -/
def roundTo (n : ℕ) (q : ℚ) : ℚ :=
  (round_half_even (q * 10 ^ n) : ℚ) / 10 ^ n

theorem round_half_even_ge_floor (q : ℚ) : ⌊q⌋ ≤ round_half_even q := by
  unfold round_half_even
  split_ifs <;> omega

theorem round_half_even_le_floor_add_one (q : ℚ) : round_half_even q ≤ ⌊q⌋ + 1 := by
  unfold round_half_even
  split_ifs <;> omega

theorem round_half_even_le_of_le {q : ℚ} {b : ℤ} (h : q ≤ (b : ℚ)) :
    round_half_even q ≤ b := by
  have hfl : ⌊q⌋ ≤ b := by
    calc ⌊q⌋ ≤ ⌊(b : ℚ)⌋ := Int.floor_le_floor h
    _ = b := Int.floor_intCast b
  rcases lt_or_eq_of_le hfl with hlt | heq
  · have := round_half_even_le_floor_add_one q
    omega
  · unfold round_half_even
    have hr : q - (⌊q⌋ : ℚ) < 1/2 := by
      have : q - (⌊q⌋ : ℚ) ≤ 0 := by
        rw [heq]; linarith
      linarith
    rw [if_pos hr]
    exact hfl

theorem round_half_even_ge_of_ge {q : ℚ} {a : ℤ} (h : (a : ℚ) ≤ q) :
    a ≤ round_half_even q := by
  have : a ≤ ⌊q⌋ := Int.le_floor.mpr h
  have := round_half_even_ge_floor q
  omega

/-- Rounding to decimals preserves closed intervals whose endpoints are exact
at that precision. -/
theorem roundTo_mem_Icc {n : ℕ} {a b q : ℚ} (ha : a * 10 ^ n = ((a * 10 ^ n).num : ℚ))
    (hb : b * 10 ^ n = ((b * 10 ^ n).num : ℚ))
    (h1 : a ≤ q) (h2 : q ≤ b) : a ≤ roundTo n q ∧ roundTo n q ≤ b := by
  have hpow : (0 : ℚ) < 10 ^ n := by positivity
  have hge : ((a * 10 ^ n).num : ℚ) ≤ q * 10 ^ n := by
    rw [← ha]; exact mul_le_mul_of_nonneg_right h1 hpow.le
  have hle : q * 10 ^ n ≤ ((b * 10 ^ n).num : ℚ) := by
    rw [← hb]; exact mul_le_mul_of_nonneg_right h2 hpow.le
  have h3 : ((a * 10 ^ n).num : ℚ) ≤ (round_half_even (q * 10 ^ n) : ℚ) := by
    exact_mod_cast round_half_even_ge_of_ge hge
  have h4 : (round_half_even (q * 10 ^ n) : ℚ) ≤ ((b * 10 ^ n).num : ℚ) := by
    exact_mod_cast round_half_even_le_of_le hle
  rw [← ha] at h3
  rw [← hb] at h4
  unfold roundTo
  constructor
  · rw [le_div_iff hpow]; linarith
  · rw [div_le_iff hpow]; linarith

/-- Rounding an exactly representable value is the identity. -/
theorem roundTo_exact {n : ℕ} {q : ℚ} (h : q * 10 ^ n = ((q * 10 ^ n).num : ℚ)) :
    roundTo n q = q := by
  unfold roundTo round_half_even
  have hfl : ⌊q * 10 ^ n⌋ = (q * 10 ^ n).num := by
    rw [h]; exact Int.floor_intCast _
  have hr : q * 10 ^ n - (⌊q * 10 ^ n⌋ : ℚ) < 1/2 := by
    rw [hfl, ← h]; norm_num
  rw [if_pos hr, hfl, ← h]
  field_simp

-- ===================================================================
-- Memory Service (src/backend/app/core/memory_service.py) and the
-- position bookkeeping of BaseAgent (src/backend/app/agents/base_agent.py)
-- ===================================================================

namespace MemoryService

/-- Row of the `trade_memories` table, restricted to the columns that the
functions under verification read.  `success` is NULL (`none`) while the
memory is open and set on close; `created_at` is the insertion time in
hours. -/
structure TradeMemoryRow where
  id : ℕ
  agent_id : String
  symbol : String
  sector : Option String := none
  market_sentiment : Option String := none
  decision : String
  entry_price : ℚ
  quantity : ℚ
  created_at : ℚ
  exit_price : Option ℚ := none
  pnl : Option ℚ := none
  pnl_percent : Option ℚ := none
  success : Option Bool := none
  holding_duration_hours : Option ℤ := none
  closed_at : Option ℚ := none
  lesson_learned : Option String := none
  deriving DecidableEq, Repr

/-- MemoryService.create_trade_memory: the inserted row.  Market context and
smart-money enrichment columns are not read by the verified paths and are
kept at their defaults. -/
def create_trade_memory (id : ℕ) (agent_id trade_id symbol decision : String)
    (entry_price quantity : ℚ) (confidence : ℤ) (created_at : ℚ) : TradeMemoryRow :=
  let _ := trade_id
  let _ := confidence
  { id := id
    agent_id := agent_id
    symbol := symbol
    decision := decision
    entry_price := entry_price
    quantity := quantity
    created_at := created_at }

/-- MemoryService.close_trade_memory: the update applied to the fetched row.
When `pnl` is omitted it is `(exit − entry) * qty` for a BUY and
`(entry − exit) * qty` otherwise; when `exit_price` is omitted the entry
price is assumed.  `pnl_percent` is expressed in percent (the source
multiplies the fraction by 100). -/
def close_trade_memory (memory : TradeMemoryRow) (now : ℚ)
    (exit_price_arg pnl_arg : Option ℚ) (lesson_learned : Option String) :
    TradeMemoryRow :=
  let entry_price := memory.entry_price
  let quantity := memory.quantity
  let exit_price :=
    match exit_price_arg with
    | none => entry_price
    | some e => e
  let pnl :=
    match pnl_arg with
    | none =>
        if memory.decision = "BUY" then (exit_price - entry_price) * quantity
        else (entry_price - exit_price) * quantity
    | some p => p
  let pnl_percent :=
    if entry_price * quantity > 0 then pnl / (entry_price * quantity) * 100 else 0
  let success := pnl > 0
  let holding_hours := int_trunc (now - memory.created_at)
  let base :=
    { memory with
      exit_price := some exit_price
      pnl := some pnl
      pnl_percent := some pnl_percent
      success := some success
      holding_duration_hours := some holding_hours
      closed_at := some now }
  match lesson_learned with
  | none => base
  | some l => { base with lesson_learned := some l }

/-- Ordering used by `order('created_at', desc=True)`: newest first. -/
def newestFirst (a b : TradeMemoryRow) : Prop := b.created_at ≤ a.created_at

instance : DecidableRel newestFirst := fun a b =>
  inferInstanceAs (Decidable (b.created_at ≤ a.created_at))

/-- MemoryService.get_similar_trades: closed memories only
(`success` not NULL), filtered by agent and the optional criteria, newest
first, limited. -/
def get_similar_trades (table : List TradeMemoryRow) (agent_id : String)
    (symbol sector market_sentiment : Option String) (limit : ℕ) :
    List TradeMemoryRow :=
  let q0 := table.filter (fun m => m.agent_id = agent_id)
  let q1 := q0.filter (fun m => ¬ m.success = none)
  let q2 := match symbol with
    | none => q1
    | some s => q1.filter (fun m => m.symbol = s)
  let q3 := match sector with
    | none => q2
    | some s => q2.filter (fun m => m.sector = some s)
  let q4 := match market_sentiment with
    | none => q3
    | some s => q3.filter (fun m => m.market_sentiment = some s)
  (q4.insertionSort newestFirst).take limit

/-- BaseAgent._update_positions, SELL branch, memory-closing step: the open
memories it finds are the results of `get_similar_trades(agent, symbol,
limit=1)` whose `success` is NULL. -/
def open_memories_on_sell (table : List TradeMemoryRow)
    (agent_id symbol : String) : List TradeMemoryRow :=
  (get_similar_trades table agent_id (some symbol) none none 1).filter
    (fun m => m.success = none)

theorem mem_get_similar_trades_closed {table : List TradeMemoryRow}
    {agent_id : String} {symbol sector sentiment : Option String} {limit : ℕ}
    {m : TradeMemoryRow}
    (h : m ∈ get_similar_trades table agent_id symbol sector sentiment limit) :
    ¬ m.success = none := by
  unfold get_similar_trades at h
  have h1 := List.mem_of_mem_take h
  have h2 := (List.perm_insertionSort newestFirst _).mem_iff.mp h1
  have h3 : ∀ l : List TradeMemoryRow,
      (∀ x ∈ l, ¬ x.success = none) →
      ∀ f : TradeMemoryRow → Bool, ∀ x ∈ l.filter f, ¬ x.success = none := by
    intro l hl f x hx
    exact hl x (List.mem_of_mem_filter hx)
  have base : ∀ x ∈ (table.filter (fun m => m.agent_id = agent_id)).filter
      (fun m => ¬ m.success = none), ¬ x.success = none := by
    intro x hx
    have := List.of_mem_filter hx
    simpa using this
  cases symbol <;> cases sector <;> cases sentiment <;>
    simp only at h2 <;>
    first
      | exact base m h2
      | (first
          | exact h3 _ base _ m h2
          | exact h3 _ (h3 _ base _) _ m h2
          | exact h3 _ (h3 _ (h3 _ base _) _) _ m h2)

end MemoryService

-- ===================================================================
-- Technical Gates (src/backend/app/core/technical_gates_service.py)
-- ===================================================================

namespace TechnicalGates

inductive GateDecision where
  | ALLOWED
  | BLOCKED
  | WARNING
  deriving DecidableEq, Repr

inductive GateReason where
  | RSI_OVERBOUGHT
  | RSI_OVERSOLD
  | RSI_HIGH
  | RSI_LOW
  | MACD_BEARISH
  | MACD_BULLISH
  | MACD_CROSSOVER_DOWN
  | MACD_CROSSOVER_UP
  | VOLUME_TOO_LOW
  | TREND_AGAINST
  | ALL_CLEAR
  deriving DecidableEq, Repr

/-- Result of a technical-gate evaluation.  The human-readable `messages`
list of the source is presentational and omitted. -/
structure TechnicalGateResult where
  decision : GateDecision
  can_proceed : Bool
  reasons : List GateReason
  rsi : Option ℚ
  macd : Option ℚ
  macd_signal : Option ℚ
  macd_histogram : Option ℚ
  volume_ratio : Option ℚ
  risk_score : ℤ
  deriving DecidableEq, Repr

/-- Mutable evaluation state threaded through the checks: accumulated
reasons, cumulative risk score and the blocked flag. -/
structure GateState where
  reasons : List GateReason
  risk_score : ℤ
  blocked : Bool
  deriving DecidableEq, Repr

def initState : GateState := ⟨[], 0, false⟩

/-- Thresholds from TechnicalGatesService.__init__. -/
def rsi_overbought : ℚ := 75
def rsi_oversold : ℚ := 25
def rsi_high_warning : ℚ := 65
def rsi_low_warning : ℚ := 35
def macd_bearish_threshold : ℚ := -0.5
def macd_bullish_threshold : ℚ := 0.5
def volume_min_ratio : ℚ := 0.5
def volume_low_warning : ℚ := 0.8

def buy_rsi_check (rsi : Option ℚ) (st : GateState) : GateState :=
  match rsi with
  | none => st
  | some r =>
    if r > rsi_overbought then
      ⟨st.reasons ++ [GateReason.RSI_OVERBOUGHT], st.risk_score + 50, true⟩
    else if r > rsi_high_warning then
      ⟨st.reasons ++ [GateReason.RSI_HIGH], st.risk_score + 25, st.blocked⟩
    else st

def buy_macd_check (macd macd_signal : Option ℚ) (st : GateState) : GateState :=
  match macd, macd_signal with
  | some m, some ms =>
    if m < ms ∧ m < 0 then
      if m < macd_bearish_threshold then
        ⟨st.reasons ++ [GateReason.MACD_BEARISH], st.risk_score + 40, true⟩
      else
        ⟨st.reasons ++ [GateReason.MACD_BEARISH], st.risk_score + 20, st.blocked⟩
    else st
  | _, _ => st

def buy_histogram_check (macd_histogram : Option ℚ) (st : GateState) : GateState :=
  match macd_histogram with
  | none => st
  | some h =>
    if h < -0.5 then
      ⟨st.reasons ++ [GateReason.MACD_CROSSOVER_DOWN], st.risk_score + 15, st.blocked⟩
    else st

def buy_volume_check (volume_ratio : Option ℚ) (st : GateState) : GateState :=
  match volume_ratio with
  | none => st
  | some v =>
    if v < volume_min_ratio then
      ⟨st.reasons ++ [GateReason.VOLUME_TOO_LOW], st.risk_score + 20, st.blocked⟩
    else if v < volume_low_warning then
      ⟨st.reasons, st.risk_score + 10, st.blocked⟩
    else st

def buy_trend_check (trend_direction : Option String) (st : GateState) : GateState :=
  match trend_direction with
  | none => st
  | some t =>
    if t = "BEARISH" ∨ t = "STRONG_BEARISH" then
      ⟨st.reasons ++ [GateReason.TREND_AGAINST], st.risk_score + 15, st.blocked⟩
    else st

def buy_combo_check (rsi macd : Option ℚ) (st : GateState) : GateState :=
  match rsi, macd with
  | some r, some m =>
    if r > 70 ∧ m < 0 then
      ⟨if GateReason.RSI_OVERBOUGHT ∈ st.reasons then st.reasons
        else st.reasons ++ [GateReason.RSI_OVERBOUGHT], 100, true⟩
    else st
  | _, _ => st

/-- Final decision shared by the BUY and SELL evaluations. -/
def finalize (rsi macd macd_signal macd_histogram volume_ratio : Option ℚ)
    (st : GateState) : TechnicalGateResult :=
  let (decision, can_proceed, reasons) :=
    if st.blocked then (GateDecision.BLOCKED, false, st.reasons)
    else if st.risk_score > 30 then (GateDecision.WARNING, true, st.reasons)
    else (GateDecision.ALLOWED, true, st.reasons ++ [GateReason.ALL_CLEAR])
  { decision := decision
    can_proceed := can_proceed
    reasons := reasons
    rsi := rsi
    macd := macd
    macd_signal := macd_signal
    macd_histogram := macd_histogram
    volume_ratio := volume_ratio
    risk_score := min 100 st.risk_score }

/-- TechnicalGatesService.evaluate_buy. -/
def evaluate_buy (rsi macd macd_signal macd_histogram volume_ratio : Option ℚ)
    (trend_direction : Option String) : TechnicalGateResult :=
  let st := buy_combo_check rsi macd
    (buy_trend_check trend_direction
      (buy_volume_check volume_ratio
        (buy_histogram_check macd_histogram
          (buy_macd_check macd macd_signal
            (buy_rsi_check rsi initState)))))
  finalize rsi macd macd_signal macd_histogram volume_ratio st

def sell_rsi_check (rsi : Option ℚ) (st : GateState) : GateState :=
  match rsi with
  | none => st
  | some r =>
    if r < rsi_oversold then
      ⟨st.reasons ++ [GateReason.RSI_OVERSOLD], st.risk_score + 50, true⟩
    else if r < rsi_low_warning then
      ⟨st.reasons ++ [GateReason.RSI_LOW], st.risk_score + 25, st.blocked⟩
    else st

def sell_macd_check (macd macd_signal : Option ℚ) (st : GateState) : GateState :=
  match macd, macd_signal with
  | some m, some ms =>
    if m > ms ∧ m > 0 then
      if m > macd_bullish_threshold then
        ⟨st.reasons ++ [GateReason.MACD_BULLISH], st.risk_score + 40, true⟩
      else
        ⟨st.reasons ++ [GateReason.MACD_BULLISH], st.risk_score + 20, st.blocked⟩
    else st
  | _, _ => st

def sell_histogram_check (macd_histogram : Option ℚ) (st : GateState) : GateState :=
  match macd_histogram with
  | none => st
  | some h =>
    if h > 0.5 then
      ⟨st.reasons ++ [GateReason.MACD_CROSSOVER_UP], st.risk_score + 15, st.blocked⟩
    else st

def sell_volume_check (volume_ratio : Option ℚ) (st : GateState) : GateState :=
  match volume_ratio with
  | none => st
  | some v =>
    if v < volume_min_ratio then
      ⟨st.reasons ++ [GateReason.VOLUME_TOO_LOW], st.risk_score + 10, st.blocked⟩
    else st

def sell_trend_check (trend_direction : Option String) (st : GateState) : GateState :=
  match trend_direction with
  | none => st
  | some t =>
    if t = "BULLISH" ∨ t = "STRONG_BULLISH" then
      ⟨st.reasons ++ [GateReason.TREND_AGAINST], st.risk_score + 15, st.blocked⟩
    else st

def sell_combo_check (rsi macd : Option ℚ) (st : GateState) : GateState :=
  match rsi, macd with
  | some r, some m =>
    if r < 30 ∧ m > 0 then
      ⟨if GateReason.RSI_OVERSOLD ∈ st.reasons then st.reasons
        else st.reasons ++ [GateReason.RSI_OVERSOLD], 100, true⟩
    else st
  | _, _ => st

/-- TechnicalGatesService.evaluate_sell. -/
def evaluate_sell (rsi macd macd_signal macd_histogram volume_ratio : Option ℚ)
    (trend_direction : Option String) : TechnicalGateResult :=
  let st := sell_combo_check rsi macd
    (sell_trend_check trend_direction
      (sell_volume_check volume_ratio
        (sell_histogram_check macd_histogram
          (sell_macd_check macd macd_signal
            (sell_rsi_check rsi initState)))))
  finalize rsi macd macd_signal macd_histogram volume_ratio st

theorem buy_macd_check_blocked {macd macd_signal : Option ℚ} {st : GateState}
    (h : st.blocked = true) : (buy_macd_check macd macd_signal st).blocked = true := by
  unfold buy_macd_check
  cases macd <;> cases macd_signal <;> simp [h]
  split_ifs <;> simp [h]

theorem buy_histogram_check_blocked {macd_histogram : Option ℚ} {st : GateState}
    (h : st.blocked = true) : (buy_histogram_check macd_histogram st).blocked = true := by
  unfold buy_histogram_check
  cases macd_histogram <;> simp [h]
  split_ifs <;> simp [h]

theorem buy_volume_check_blocked {volume_ratio : Option ℚ} {st : GateState}
    (h : st.blocked = true) : (buy_volume_check volume_ratio st).blocked = true := by
  unfold buy_volume_check
  cases volume_ratio <;> simp [h]
  split_ifs <;> simp [h]

theorem buy_trend_check_blocked {trend : Option String} {st : GateState}
    (h : st.blocked = true) : (buy_trend_check trend st).blocked = true := by
  unfold buy_trend_check
  cases trend <;> simp [h]
  split_ifs <;> simp [h]

theorem buy_combo_check_blocked {rsi macd : Option ℚ} {st : GateState}
    (h : st.blocked = true) : (buy_combo_check rsi macd st).blocked = true := by
  unfold buy_combo_check
  cases rsi <;> cases macd <;> simp [h]
  split_ifs <;> simp [h]

theorem sell_macd_check_blocked {macd macd_signal : Option ℚ} {st : GateState}
    (h : st.blocked = true) : (sell_macd_check macd macd_signal st).blocked = true := by
  unfold sell_macd_check
  cases macd <;> cases macd_signal <;> simp [h]
  split_ifs <;> simp [h]

theorem sell_histogram_check_blocked {macd_histogram : Option ℚ} {st : GateState}
    (h : st.blocked = true) : (sell_histogram_check macd_histogram st).blocked = true := by
  unfold sell_histogram_check
  cases macd_histogram <;> simp [h]
  split_ifs <;> simp [h]

theorem sell_volume_check_blocked {volume_ratio : Option ℚ} {st : GateState}
    (h : st.blocked = true) : (sell_volume_check volume_ratio st).blocked = true := by
  unfold sell_volume_check
  cases volume_ratio <;> simp [h]
  split_ifs <;> simp [h]

theorem sell_trend_check_blocked {trend : Option String} {st : GateState}
    (h : st.blocked = true) : (sell_trend_check trend st).blocked = true := by
  unfold sell_trend_check
  cases trend <;> simp [h]
  split_ifs <;> simp [h]

theorem sell_combo_check_blocked {rsi macd : Option ℚ} {st : GateState}
    (h : st.blocked = true) : (sell_combo_check rsi macd st).blocked = true := by
  unfold sell_combo_check
  cases rsi <;> cases macd <;> simp [h]
  split_ifs <;> simp [h]

theorem finalize_blocked {rsi macd ms mh v : Option ℚ} {st : GateState}
    (h : st.blocked = true) :
    (finalize rsi macd ms mh v st).can_proceed = false ∧
      (finalize rsi macd ms mh v st).decision = GateDecision.BLOCKED := by
  unfold finalize
  simp [h]

end TechnicalGates

-- ===================================================================
-- Circuit Breaker (src/backend/app/core/circuit_breaker.py)
-- ===================================================================

namespace CircuitBreaker

inductive BreakerStatus where
  | ACTIVE
  | PAUSED_DAILY
  | PAUSED_WEEKLY
  | PAUSED_CONSECUTIVE
  | REVIEW_REQUIRED
  deriving DecidableEq, Repr

/-- Per-agent breaker state.  Instants are rational hour counts; the
calendar date of an instant is its 24-hour block.  The
`pause_reason` text is presentational and omitted. -/
structure AgentBreakerState where
  status : BreakerStatus := BreakerStatus.ACTIVE
  pause_until : Option ℚ := none
  daily_start_capital : ℚ := 0
  daily_pnl : ℚ := 0
  daily_trades : ℕ := 0
  weekly_start_capital : ℚ := 0
  weekly_pnl : ℚ := 0
  consecutive_wins : ℕ := 0
  consecutive_losses : ℕ := 0
  last_results : List Bool := []
  sizing_multiplier : ℚ := 1
  last_trade_time : Option ℚ := none
  last_reset_daily : Option ℚ := none
  last_reset_weekly : Option ℚ := none
  deriving DecidableEq, Repr

/-- Limits and durations from CircuitBreaker.__init__ (durations in hours). -/
def daily_loss_limit : ℚ := 0.05
def weekly_loss_limit : ℚ := 0.10
def pause_daily_hours : ℚ := 24
def pause_weekly_hours : ℚ := 7 * 24
def pause_consecutive_hours : ℚ := 4
def max_consecutive_losses : ℕ := 5
def win_streak_bonus_threshold : ℕ := 5
def loss_streak_multiplier : ℚ := 0.7
def win_streak_multiplier : ℚ := 1.2

/-- Calendar date of an instant: its 24-hour block index. -/
def dateOf (t : ℚ) : ℤ := ⌊t / 24⌋

/-- CircuitBreaker.get_or_create_state: the freshly created state. -/
def get_or_create_state (initial_capital now : ℚ) : AgentBreakerState :=
  { daily_start_capital := initial_capital
    weekly_start_capital := initial_capital
    last_reset_daily := some now
    last_reset_weekly := some now }

/-- Daily counters reset to a fresh day. -/
def applyDailyReset (s : AgentBreakerState) (now current_capital : ℚ) :
    AgentBreakerState :=
  { s with
    daily_start_capital := current_capital
    daily_pnl := 0
    daily_trades := 0
    last_reset_daily := some now }

/-- CircuitBreaker._reset_daily_if_needed: reset when there is no previous
daily reset or its calendar date is before the current one. -/
def reset_daily_if_needed (s : AgentBreakerState) (now current_capital : ℚ) :
    AgentBreakerState :=
  match s.last_reset_daily with
  | none => applyDailyReset s now current_capital
  | some t =>
    if dateOf t < dateOf now then applyDailyReset s now current_capital else s

/-- CircuitBreaker._reset_weekly_if_needed.  The elapsed-days count is the
floor of the hour difference over 24, the behaviour of `timedelta.days`. -/
def reset_weekly_if_needed (s : AgentBreakerState) (now current_capital : ℚ) :
    AgentBreakerState :=
  match s.last_reset_weekly with
  | none =>
    { s with last_reset_weekly := some now, weekly_start_capital := current_capital }
  | some t =>
    if (7 : ℤ) ≤ ⌊(now - t) / 24⌋ then
      { s with
        weekly_start_capital := current_capital
        weekly_pnl := 0
        last_reset_weekly := some now }
    else s

/-- CircuitBreaker._calculate_daily_loss_pct. -/
def calculate_daily_loss_pct (s : AgentBreakerState) (current_capital : ℚ) : ℚ :=
  if s.daily_start_capital ≤ 0 then 0
  else max 0 ((s.daily_start_capital - current_capital) / s.daily_start_capital)

/-- CircuitBreaker._calculate_weekly_loss_pct. -/
def calculate_weekly_loss_pct (s : AgentBreakerState) (current_capital : ℚ) : ℚ :=
  if s.weekly_start_capital ≤ 0 then 0
  else max 0 ((s.weekly_start_capital - current_capital) / s.weekly_start_capital)

/-- CircuitBreaker._trigger_pause. -/
def trigger_pause (s : AgentBreakerState) (status : BreakerStatus)
    (now duration : ℚ) : AgentBreakerState :=
  { s with status := status, pause_until := some (now + duration) }

/-- CircuitBreaker._reactivate_trading: back to ACTIVE and the loss streak
is cleared. -/
def reactivate_trading (s : AgentBreakerState) : AgentBreakerState :=
  { s with
    status := BreakerStatus.ACTIVE
    pause_until := none
    consecutive_losses := 0 }

/-- Reason component of the `can_trade` result (the source returns a
human-readable string; only its identity matters here). -/
inductive CanTradeReason where
  | paused
  | daily_limit
  | weekly_limit
  | consecutive_limit
  | allowed
  deriving DecidableEq, Repr

/-- CircuitBreaker.can_trade: the verdict, its reason, and the mutated
state. -/
def can_trade (s0 : AgentBreakerState) (now current_capital : ℚ) :
    Bool × CanTradeReason × AgentBreakerState :=
  let s1 := reset_daily_if_needed s0 now current_capital
  let s2 := reset_weekly_if_needed s1 now current_capital
  let stillPaused :=
    if s2.status = BreakerStatus.ACTIVE then false
    else
      match s2.pause_until with
      | some t => decide (now < t)
      | none => false
  if stillPaused then (false, CanTradeReason.paused, s2)
  else
    let s3 := if s2.status = BreakerStatus.ACTIVE then s2 else reactivate_trading s2
    let daily_loss_pct := calculate_daily_loss_pct s3 current_capital
    let weekly_loss_pct := calculate_weekly_loss_pct s3 current_capital
    if daily_loss_pct ≥ daily_loss_limit then
      (false, CanTradeReason.daily_limit,
        trigger_pause s3 BreakerStatus.PAUSED_DAILY now pause_daily_hours)
    else if weekly_loss_pct ≥ weekly_loss_limit then
      (false, CanTradeReason.weekly_limit,
        trigger_pause s3 BreakerStatus.PAUSED_WEEKLY now pause_weekly_hours)
    else if max_consecutive_losses ≤ s3.consecutive_losses then
      (false, CanTradeReason.consecutive_limit,
        trigger_pause s3 BreakerStatus.PAUSED_CONSECUTIVE now pause_consecutive_hours)
    else (true, CanTradeReason.allowed, s3)

/-- CircuitBreaker.record_trade_result: the mutated state (the source also
returns a summary dictionary read off the same fields). -/
def record_trade_result (s0 : AgentBreakerState) (now pnl current_capital : ℚ) :
    AgentBreakerState :=
  let s1 := reset_daily_if_needed s0 now (current_capital + |pnl|)
  let is_win : Bool := decide (pnl > 0)
  let s2 :=
    { s1 with
      daily_pnl := s1.daily_pnl + pnl
      weekly_pnl := s1.weekly_pnl + pnl
      daily_trades := s1.daily_trades + 1
      last_trade_time := some now
      -- deque(maxlen=10), newest element first in this list encoding
      last_results := (is_win :: s1.last_results).take 10 }
  if is_win then
    let s3 := { s2 with
      consecutive_wins := s2.consecutive_wins + 1
      consecutive_losses := 0 }
    if win_streak_bonus_threshold ≤ s3.consecutive_wins then
      { s3 with sizing_multiplier := win_streak_multiplier }
    else s3
  else
    let s3 := { s2 with
      consecutive_losses := s2.consecutive_losses + 1
      consecutive_wins := 0 }
    if 3 ≤ s3.consecutive_losses then
      { s3 with sizing_multiplier := loss_streak_multiplier }
    else s3

theorem reset_daily_fields (s : AgentBreakerState) (now cap : ℚ) :
    (reset_daily_if_needed s now cap).status = s.status ∧
      (reset_daily_if_needed s now cap).pause_until = s.pause_until ∧
      (reset_daily_if_needed s now cap).consecutive_losses = s.consecutive_losses ∧
      (reset_daily_if_needed s now cap).consecutive_wins = s.consecutive_wins ∧
      (reset_daily_if_needed s now cap).sizing_multiplier = s.sizing_multiplier := by
  unfold reset_daily_if_needed applyDailyReset
  cases s.last_reset_daily <;> simp
  split_ifs <;> simp

theorem reset_weekly_fields (s : AgentBreakerState) (now cap : ℚ) :
    (reset_weekly_if_needed s now cap).status = s.status ∧
      (reset_weekly_if_needed s now cap).pause_until = s.pause_until ∧
      (reset_weekly_if_needed s now cap).consecutive_losses = s.consecutive_losses ∧
      (reset_weekly_if_needed s now cap).consecutive_wins = s.consecutive_wins ∧
      (reset_weekly_if_needed s now cap).sizing_multiplier = s.sizing_multiplier := by
  unfold reset_weekly_if_needed
  cases s.last_reset_weekly <;> simp
  split_ifs <;> simp

theorem record_trade_result_loss (s : AgentBreakerState) (now pnl cap : ℚ)
    (h : pnl ≤ 0) :
    (record_trade_result s now pnl cap).consecutive_losses =
        s.consecutive_losses + 1 ∧
      (record_trade_result s now pnl cap).consecutive_wins = 0 ∧
      (record_trade_result s now pnl cap).status = s.status ∧
      (record_trade_result s now pnl cap).pause_until = s.pause_until := by
  have hw : ¬ pnl > 0 := not_lt.mpr h
  have hd := reset_daily_fields s now (cap + |pnl|)
  simp only [record_trade_result, hw, decide_eq_true_eq, if_false, decide_False]
  split_ifs <;>
    simp_all

theorem record_trade_result_win (s : AgentBreakerState) (now pnl cap : ℚ)
    (h : pnl > 0) :
    (record_trade_result s now pnl cap).consecutive_wins =
        s.consecutive_wins + 1 ∧
      (record_trade_result s now pnl cap).consecutive_losses = 0 ∧
      (record_trade_result s now pnl cap).status = s.status ∧
      (record_trade_result s now pnl cap).pause_until = s.pause_until := by
  have hd := reset_daily_fields s now (cap + |pnl|)
  simp only [record_trade_result, h, decide_eq_true_eq, decide_True, if_true]
  split_ifs <;>
    simp_all

end CircuitBreaker

-- ===================================================================
-- Kelly Calculator (src/backend/app/core/kelly_calculator.py)
-- ===================================================================

namespace KellyCalculator

/-- Result of the position-size computation.  The `reasoning` text is
presentational and omitted. -/
structure PositionSizing where
  recommended_amount : ℚ
  position_pct : ℚ
  kelly_fraction : ℚ
  adjusted_kelly : ℚ
  confidence_factor : ℚ
  risk_factor : ℚ
  max_loss : ℚ
  deriving DecidableEq, Repr

/-- Parameters from KellyCalculator.__init__. -/
def default_win_rate : ℚ := 0.50
def default_win_loss_ratio : ℚ := 1.5
def max_position_pct : ℚ := 0.10
def min_position_pct : ℚ := 0.01
def base_kelly_multiplier : ℚ := 0.5
def vix_low_threshold : ℚ := 15
def vix_high_threshold : ℚ := 30
def vix_low_multiplier : ℚ := 1.5
def vix_high_multiplier : ℚ := 0.5
def win_streak_threshold : ℕ := 5
def loss_streak_threshold : ℕ := 3
def win_streak_bonus : ℚ := 1.2
def loss_streak_malus : ℚ := 0.6

/-- KellyCalculator.calculate_kelly_fraction: `f = w − (1−w)/r`, and 0 when
the ratio is not positive. -/
def calculate_kelly_fraction (win_rate win_loss_ratio : ℚ) : ℚ :=
  if win_loss_ratio ≤ 0 then 0
  else win_rate - (1 - win_rate) / win_loss_ratio

/-- KellyCalculator.get_dynamic_kelly_multiplier. -/
def get_dynamic_kelly_multiplier (vix : ℚ)
    (consecutive_wins consecutive_losses : ℕ) : ℚ :=
  let vix_factor :=
    if vix < vix_low_threshold then vix_low_multiplier
    else if vix > vix_high_threshold then vix_high_multiplier
    else
      let vix_range := vix_high_threshold - vix_low_threshold
      let vix_position := (vix - vix_low_threshold) / vix_range
      vix_low_multiplier - vix_position * (vix_low_multiplier - vix_high_multiplier)
  let multiplier := base_kelly_multiplier * vix_factor
  if win_streak_threshold ≤ consecutive_wins then multiplier * win_streak_bonus
  else if loss_streak_threshold ≤ consecutive_losses then multiplier * loss_streak_malus
  else multiplier

/-- KellyCalculator.calculate_confidence_factor. -/
def calculate_confidence_factor (confidence : ℤ) : ℚ :=
  if confidence < 50 then 0.3
  else if confidence < 60 then 0.5
  else if confidence < 70 then 0.7
  else if confidence < 80 then 0.85
  else if confidence < 90 then 1.0
  else 1.1

/-- KellyCalculator.calculate_risk_factor.  The source tests `vix > 25`
before `vix > 35` in the same elif chain, so the ×0.5 branch for very high
VIX is unreachable. -/
def calculate_risk_factor (vix : ℚ) (risk_level smart_money_signal : String) : ℚ :=
  let factor : ℚ := 1.0
  let factor :=
    if vix < 15 then factor * 1.1
    else if vix > 25 then factor * 0.8
    else if vix > 35 then factor * 0.5
    else factor
  let factor :=
    if risk_level = "LOW" then factor * 1.1
    else if risk_level = "HIGH" then factor * 0.8
    else factor
  let factor :=
    if smart_money_signal = "BULLISH" ∨ smart_money_signal = "STRONG_BULLISH" then
      factor * 1.1
    else if smart_money_signal = "BEARISH" ∨ smart_money_signal = "STRONG_BEARISH" then
      factor * 0.8
    else factor
  min 1.3 (max 0.4 factor)

/-- KellyCalculator.calculate_position_size.  The agent statistics the
source fetches from the database are passed in as `win_rate` and
`win_loss_ratio`. -/
def calculate_position_size (win_rate win_loss_ratio capital : ℚ)
    (confidence : ℤ) (risk_level : String) (vix : ℚ)
    (smart_money_signal : String)
    (consecutive_wins consecutive_losses : ℕ) : PositionSizing :=
  let kelly_raw := calculate_kelly_fraction win_rate win_loss_ratio
  let dynamic_multiplier :=
    get_dynamic_kelly_multiplier vix consecutive_wins consecutive_losses
  let kelly_adjusted := kelly_raw * dynamic_multiplier
  let confidence_factor := calculate_confidence_factor confidence
  let risk_factor := calculate_risk_factor vix risk_level smart_money_signal
  let final_kelly := kelly_adjusted * confidence_factor * risk_factor
  let position_pct := min max_position_pct (max min_position_pct final_kelly)
  let position_pct := if kelly_raw ≤ 0 then min_position_pct else position_pct
  let amount := capital * position_pct
  let max_loss := amount * 0.05
  { recommended_amount := roundTo 2 amount
    position_pct := roundTo 4 position_pct
    kelly_fraction := roundTo 4 kelly_raw
    adjusted_kelly := roundTo 4 kelly_adjusted
    confidence_factor := roundTo 2 confidence_factor
    risk_factor := roundTo 2 risk_factor
    max_loss := roundTo 2 max_loss }

/-- The clamped position fraction before the 4-decimal display rounding. -/
def position_pct_exact (win_rate win_loss_ratio : ℚ) (confidence : ℤ)
    (risk_level : String) (vix : ℚ) (smart_money_signal : String)
    (consecutive_wins consecutive_losses : ℕ) : ℚ :=
  let kelly_raw := calculate_kelly_fraction win_rate win_loss_ratio
  let final_kelly :=
    kelly_raw * get_dynamic_kelly_multiplier vix consecutive_wins consecutive_losses *
      calculate_confidence_factor confidence *
      calculate_risk_factor vix risk_level smart_money_signal
  if kelly_raw ≤ 0 then min_position_pct
  else min max_position_pct (max min_position_pct final_kelly)

theorem position_pct_exact_spec (win_rate win_loss_ratio capital : ℚ)
    (confidence : ℤ) (risk_level : String) (vix : ℚ) (sm : String)
    (cw cl : ℕ) :
    (calculate_position_size win_rate win_loss_ratio capital confidence
        risk_level vix sm cw cl).position_pct =
      roundTo 4 (position_pct_exact win_rate win_loss_ratio confidence
        risk_level vix sm cw cl) ∧
    (calculate_position_size win_rate win_loss_ratio capital confidence
        risk_level vix sm cw cl).recommended_amount =
      roundTo 2 (capital * position_pct_exact win_rate win_loss_ratio confidence
        risk_level vix sm cw cl) := by
  simp only [calculate_position_size, position_pct_exact]
  exact ⟨trivial, trivial⟩

theorem position_pct_exact_bounds (win_rate win_loss_ratio : ℚ)
    (confidence : ℤ) (risk_level : String) (vix : ℚ) (sm : String)
    (cw cl : ℕ) :
    min_position_pct ≤
        position_pct_exact win_rate win_loss_ratio confidence risk_level vix sm cw cl ∧
      position_pct_exact win_rate win_loss_ratio confidence risk_level vix sm cw cl ≤
        max_position_pct := by
  simp only [position_pct_exact]
  split_ifs with h
  · exact ⟨le_refl _, by norm_num [min_position_pct, max_position_pct]⟩
  · constructor
    · exact le_min (by norm_num [min_position_pct, max_position_pct])
        (le_max_left _ _)
    · exact min_le_left _ _

end KellyCalculator

-- ===================================================================
-- Signal Combiner (src/backend/app/core/signal_combiner.py)
-- ===================================================================

namespace SignalCombiner

/-- Smart-money snapshot as read by _calculate_smart_money_score.  The VIX
and fear/greed sections always yield a value (the source defaults to 20 and
50 when absent); an options, dark-pool or insider section that is absent or
empty is skipped entirely, which `none` models.  When present the source
reads `put_call_ratio` (default 1.0), `dark_pool_ratio` (default 0.5) and
`net_insider_sentiment` (default 0). -/
structure SmartMoneyData where
  vix : ℚ := 20
  fear_greed_index : ℚ := 50
  put_call_ratio : Option ℚ := none
  dark_pool_ratio : Option ℚ := none
  net_insider_sentiment : Option ℚ := none
  deriving DecidableEq, Repr

/-- Thresholds from SignalCombiner.__init__. -/
def dark_pool_bullish_threshold : ℚ := 0.55
def dark_pool_bearish_threshold : ℚ := 0.45
def put_call_bullish_threshold : ℚ := 0.7
def put_call_bearish_threshold : ℚ := 1.3

/-- SignalCombiner._calculate_smart_money_score.  Only the VIX component
carries an `else` branch subtracting the signal for a non-BUY decision; the
fear/greed, options, dark-pool and insider components are added only when
the decision is BUY. -/
def calculate_smart_money_score (decision : String) (d : SmartMoneyData) : ℚ :=
  let is_bullish_decision := decision = "BUY"
  let vix_signal : ℚ :=
    if d.vix < 15 then 0.3
    else if d.vix > 30 then -0.3
    else 0
  let score : ℚ := if is_bullish_decision then vix_signal else -vix_signal
  let fng_signal : ℚ :=
    if d.fear_greed_index < 25 then 0.2
    else if d.fear_greed_index > 75 then -0.2
    else 0
  let score := if is_bullish_decision then score + fng_signal else score
  let score :=
    match d.put_call_ratio with
    | none => score
    | some pc =>
      let opt_signal : ℚ :=
        if pc < put_call_bullish_threshold then 0.25
        else if pc > put_call_bearish_threshold then -0.25
        else 0
      if is_bullish_decision then score + opt_signal else score
  let score :=
    match d.dark_pool_ratio with
    | none => score
    | some dp =>
      let dp_signal : ℚ :=
        if dp > dark_pool_bullish_threshold then 0.2
        else if dp < dark_pool_bearish_threshold then -0.2
        else 0
      if is_bullish_decision then score + dp_signal else score
  let score :=
    match d.net_insider_sentiment with
    | none => score
    | some net =>
      let ins_signal : ℚ :=
        if net > 0.5 then 0.3
        else if net < -0.5 then -0.3
        else 0
      if is_bullish_decision then score + ins_signal else score
  max (-1) (min 1 score)

/-- A snapshot with every non-VIX axis neutral. -/
def vixOnly (d : SmartMoneyData) : SmartMoneyData :=
  { d with
    fear_greed_index := 50
    put_call_ratio := none
    dark_pool_ratio := none
    net_insider_sentiment := none }

end SignalCombiner

-- ===================================================================
-- Earnings Calendar (src/backend/app/core/earnings_calendar.py)
-- ===================================================================

namespace EarningsCalendar

inductive EarningsRisk where
  | HIGH
  | MEDIUM
  | LOW
  | NONE
  deriving DecidableEq, Repr

/-- EarningsCalendarService._calculate_risk_level: risk level, buy-avoid
flag and position-size multiplier from the signed number of days until the
earnings date (negative when the date has passed).  The message text is
presentational and omitted. -/
def calculate_risk_level (days_until : ℤ) : EarningsRisk × Bool × ℚ :=
  if days_until ≤ 0 then
    if -2 ≤ days_until then (EarningsRisk.MEDIUM, false, 0.75)
    else (EarningsRisk.NONE, false, 1.0)
  else if days_until ≤ 3 then (EarningsRisk.HIGH, true, 0.0)
  else if days_until ≤ 7 then (EarningsRisk.MEDIUM, false, 0.5)
  else if days_until ≤ 14 then (EarningsRisk.LOW, false, 0.75)
  else (EarningsRisk.NONE, false, 1.0)

/-- EarningsCalendarService.check_earnings when no earnings date is known
(no API key, no entry, or unparseable date): risk NONE, no buy avoidance,
full size. -/
def check_earnings_no_date : EarningsRisk × Bool × ℚ :=
  (EarningsRisk.NONE, false, 1.0)

end EarningsCalendar

-- ===================================================================
-- Exit Strategy Manager (src/backend/app/core/exit_strategy_manager.py)
-- ===================================================================

namespace ExitStrategy

inductive ExitReason where
  | STOP_LOSS
  | TAKE_PROFIT
  | TRAILING_STOP
  | TIME_EXIT
  | SIGNAL_EXIT
  | MANUAL
  deriving DecidableEq, Repr

/-- Exit levels of one (agent, symbol) position.  `entry_time` is in
hours. -/
structure ExitLevel where
  stop_loss_price : ℚ
  stop_loss_pct : ℚ
  take_profit_price : ℚ
  take_profit_pct : ℚ
  trailing_stop_active : Bool
  trailing_stop_price : Option ℚ
  highest_price_seen : ℚ
  entry_time : ℚ
  deriving DecidableEq, Repr

/-- Exit verdict.  The message text is presentational and omitted;
`urgency` keeps the source's string values. -/
structure ExitSignal where
  should_exit : Bool
  reason : ExitReason
  urgency : String
  current_pnl_pct : ℚ
  deriving DecidableEq, Repr

/-- Parameters from ExitStrategyManager.__init__. -/
def trailing_activation_pct : ℚ := 0.04
def trailing_distance_pct : ℚ := 0.015
def max_holding_days : ℤ := 10
def stagnation_threshold_pct : ℚ := 0.01

/-- Entry price as check_exit_conditions reconstructs it from the stored
stop-loss level. -/
def entry_price_of (el : ExitLevel) : ℚ :=
  el.stop_loss_price / (1 - el.stop_loss_pct)

/-- Unrealized pnl fraction as check_exit_conditions computes it. -/
def current_pnl_pct_of (el : ExitLevel) (current_price : ℚ) : ℚ :=
  (current_price - entry_price_of el) / entry_price_of el

/-- ExitStrategyManager.check_exit_conditions for a position that has exit
levels, returning the signal and the mutated levels.  The trailing-stop
update and check are both nested under the `pnl ≥ activation` test, so the
stored trailing state is not consulted below that threshold. -/
def check_exit_conditions (el : ExitLevel) (now current_price : ℚ)
    (smart_money_signal : String) : ExitSignal × ExitLevel :=
  let current_pnl_pct := current_pnl_pct_of el current_price
  if current_price ≤ el.stop_loss_price then
    (⟨true, ExitReason.STOP_LOSS, "CRITICAL", current_pnl_pct⟩, el)
  else if current_price ≥ el.take_profit_price then
    (⟨true, ExitReason.TAKE_PROFIT, "HIGH", current_pnl_pct⟩, el)
  else
    let updated :=
      if current_pnl_pct ≥ trailing_activation_pct then
        let el1 := { el with trailing_stop_active := true }
        let el2 :=
          if current_price > el1.highest_price_seen then
            { el1 with highest_price_seen := current_price }
          else el1
        let trailing_price := el2.highest_price_seen * (1 - trailing_distance_pct)
        some { el2 with trailing_stop_price := some trailing_price }
      else none
    match updated with
    | some el3 =>
      if current_price ≤ el3.highest_price_seen * (1 - trailing_distance_pct) then
        (⟨true, ExitReason.TRAILING_STOP, "HIGH", current_pnl_pct⟩, el3)
      else
        after_trailing el3 now smart_money_signal current_pnl_pct
    | none => after_trailing el now smart_money_signal current_pnl_pct
where
  /-- Time-based and signal-based checks shared by both trailing branches. -/
  after_trailing (el : ExitLevel) (now : ℚ)
      (smart_money_signal : String) (current_pnl_pct : ℚ) :
      ExitSignal × ExitLevel :=
    let holding_days : ℤ := ⌊(now - el.entry_time) / 24⌋
    if max_holding_days ≤ holding_days ∧ |current_pnl_pct| < stagnation_threshold_pct then
      (⟨true, ExitReason.TIME_EXIT, "MEDIUM", current_pnl_pct⟩, el)
    else if smart_money_signal = "STRONG_BEARISH" ∧ current_pnl_pct > 0 then
      (⟨true, ExitReason.SIGNAL_EXIT, "MEDIUM", current_pnl_pct⟩, el)
    else
      (⟨false, ExitReason.MANUAL, "LOW", current_pnl_pct⟩, el)

end ExitStrategy

-- ===================================================================
-- Claims
-- ===================================================================

open MemoryService TechnicalGates CircuitBreaker KellyCalculator
  SignalCombiner EarningsCalendar ExitStrategy

/-- C1: on a SELL, the memory-closing step of BaseAgent._update_positions
searches for an open memory inside the result of get_similar_trades, but
get_similar_trades returns closed memories only, so the set of open
memories it can find is empty for every table state: no SELL ever closes a
trade memory through this path, contradicting the documented matching-on-
close behaviour (capital and positions are still updated, as those steps do
not depend on the memory search). -/
theorem c1_sell_finds_no_open_memory (table : List TradeMemoryRow)
    (agent_id symbol : String) :
    open_memories_on_sell table agent_id symbol = [] := by
  unfold open_memories_on_sell
  rw [List.filter_eq_nil]
  intro m hm
  have := mem_get_similar_trades_closed hm
  simpa using this

/-- C2 counterexample: creating a BUY memory with entry 100 and quantity 10
and closing it at exit 110 yields pnl_percent 10 (a percentage), not the
fraction 0.10 the claim states. -/
theorem c2_pnl_percent_counterexample :
    (close_trade_memory
        (create_trade_memory 1 "agent" "trade" "AAPL" "BUY" 100 10 80 0)
        5 (some 110) none none).pnl_percent = some 10 ∧
      ¬ (close_trade_memory
        (create_trade_memory 1 "agent" "trade" "AAPL" "BUY" 100 10 80 0)
        5 (some 110) none none).pnl_percent = some (1/10) := by
  constructor <;> norm_num [close_trade_memory, create_trade_memory, int_trunc]

/-- C2 as amended: close_trade_memory with pnl omitted computes
`pnl = (exit − entry) * qty` for a BUY memory and `(entry − exit) * qty`
for a SELL memory, sets `success = (pnl > 0)` and
`pnl_percent = pnl / (entry_price * quantity) * 100` (a percentage, not a
fraction); creating then closing a BUY memory with entry 100, exit 110,
qty 10 yields pnl 100, success true and pnl_percent 10. -/
theorem c2_close_trade_memory (mB mS : TradeMemoryRow) (nB nS eB eS : ℚ)
    (hB : mB.decision = "BUY") (hBq : mB.entry_price * mB.quantity > 0)
    (hS : mS.decision = "SELL") (hSq : mS.entry_price * mS.quantity > 0) :
    ((close_trade_memory mB nB (some eB) none none).pnl =
        some ((eB - mB.entry_price) * mB.quantity) ∧
      (close_trade_memory mB nB (some eB) none none).success =
        some (decide ((eB - mB.entry_price) * mB.quantity > 0)) ∧
      (close_trade_memory mB nB (some eB) none none).pnl_percent =
        some ((eB - mB.entry_price) * mB.quantity /
          (mB.entry_price * mB.quantity) * 100)) ∧
    ((close_trade_memory mS nS (some eS) none none).pnl =
        some ((mS.entry_price - eS) * mS.quantity) ∧
      (close_trade_memory mS nS (some eS) none none).success =
        some (decide ((mS.entry_price - eS) * mS.quantity > 0)) ∧
      (close_trade_memory mS nS (some eS) none none).pnl_percent =
        some ((mS.entry_price - eS) * mS.quantity /
          (mS.entry_price * mS.quantity) * 100)) ∧
    ((close_trade_memory
        (create_trade_memory 1 "agent" "trade" "AAPL" "BUY" 100 10 80 0)
        5 (some 110) none none).pnl = some 100 ∧
      (close_trade_memory
        (create_trade_memory 1 "agent" "trade" "AAPL" "BUY" 100 10 80 0)
        5 (some 110) none none).success = some true ∧
      (close_trade_memory
        (create_trade_memory 1 "agent" "trade" "AAPL" "BUY" 100 10 80 0)
        5 (some 110) none none).pnl_percent = some 10) := by
  refine ⟨⟨?_, ?_, ?_⟩, ⟨?_, ?_, ?_⟩, ⟨?_, ?_, ?_⟩⟩ <;>
    simp [close_trade_memory, create_trade_memory, hB, hBq, hS, hSq, int_trunc] <;>
    norm_num

/-- Witness for c2_close_trade_memory at entry 100, qty 10, exit 110 for
the BUY leg and entry 100, qty 10, exit 90 for the SELL leg. -/
theorem c2_close_trade_memory_witness :
    ((close_trade_memory
        { id := 1, agent_id := "a", symbol := "AAPL", decision := "BUY",
          entry_price := 100, quantity := 10, created_at := 0 }
        5 (some 110) none none).pnl = some ((110 - 100) * 10)) ∧
    ((close_trade_memory
        { id := 2, agent_id := "a", symbol := "AAPL", decision := "SELL",
          entry_price := 100, quantity := 10, created_at := 0 }
        5 (some 90) none none).pnl = some ((100 - 90) * 10)) := by
  have h := c2_close_trade_memory
    { id := 1, agent_id := "a", symbol := "AAPL", decision := "BUY",
      entry_price := 100, quantity := 10, created_at := 0 }
    { id := 2, agent_id := "a", symbol := "AAPL", decision := "SELL",
      entry_price := 100, quantity := 10, created_at := 0 }
    5 5 110 90 rfl (by norm_num) rfl (by norm_num)
  exact ⟨h.1.1, h.2.1.1⟩

/-- C3: the technical gate blocks every BUY whose RSI is strictly above 75
and every SELL whose RSI is strictly below 25, whatever the MACD, volume
and trend inputs: the result is BLOCKED and can_proceed is false. -/
theorem c3_rsi_hard_gates (rB rS : ℚ) (m ms mh v m2 ms2 mh2 v2 : Option ℚ)
    (t t2 : Option String) (hB : rB > 75) (hS : rS < 25) :
    ((evaluate_buy (some rB) m ms mh v t).can_proceed = false ∧
      (evaluate_buy (some rB) m ms mh v t).decision = GateDecision.BLOCKED) ∧
    ((evaluate_sell (some rS) m2 ms2 mh2 v2 t2).can_proceed = false ∧
      (evaluate_sell (some rS) m2 ms2 mh2 v2 t2).decision = GateDecision.BLOCKED) := by
  constructor
  · have h1 : (buy_rsi_check (some rB) initState).blocked = true := by
      simp [buy_rsi_check, initState, rsi_overbought, hB]
    exact finalize_blocked
      (buy_combo_check_blocked
        (buy_trend_check_blocked
          (buy_volume_check_blocked
            (buy_histogram_check_blocked
              (buy_macd_check_blocked h1)))))
  · have h1 : (sell_rsi_check (some rS) initState).blocked = true := by
      simp [sell_rsi_check, initState, rsi_oversold, hS]
    exact finalize_blocked
      (sell_combo_check_blocked
        (sell_trend_check_blocked
          (sell_volume_check_blocked
            (sell_histogram_check_blocked
              (sell_macd_check_blocked h1)))))

/-- Witness for c3_rsi_hard_gates at RSI 80 for the BUY and RSI 20 for the
SELL, with no other indicators supplied. -/
theorem c3_rsi_hard_gates_witness :
    (evaluate_buy (some 80) none none none none none).can_proceed = false ∧
      (evaluate_sell (some 20) none none none none none).can_proceed = false := by
  have h := c3_rsi_hard_gates 80 20 none none none none none none none none
    none none (by norm_num) (by norm_num)
  exact ⟨h.1.1, h.2.1⟩

/-- C4: (a) while any PAUSED_* status is in force with pause_until in the
future, can_trade is false; (b) a recorded loss after four consecutive
losses makes consecutive_losses 5, and the next can_trade (with daily and
weekly drawdowns under their limits) returns false, pausing with status
PAUSED_CONSECUTIVE until now + 4 hours; (c) once pause_until has passed,
can_trade (with drawdowns under their limits) returns true again and
consecutive_losses is reset to 0. -/
theorem c4_circuit_breaker_pause_cycle
    (sA : AgentBreakerState) (nowA capA tA : ℚ)
    (sB : AgentBreakerState) (nowB pnlB capB : ℚ)
    (sC : AgentBreakerState) (nowC capC tC : ℚ) :
    ((sA.status = BreakerStatus.PAUSED_DAILY ∨
        sA.status = BreakerStatus.PAUSED_WEEKLY ∨
        sA.status = BreakerStatus.PAUSED_CONSECUTIVE) →
      sA.pause_until = some tA → nowA < tA →
      (can_trade sA nowA capA).1 = false) ∧
    (pnlB ≤ 0 → sB.consecutive_losses = 4 →
      sB.status = BreakerStatus.ACTIVE →
      calculate_daily_loss_pct
        (reset_weekly_if_needed
          (reset_daily_if_needed (record_trade_result sB nowB pnlB capB) nowB capB)
          nowB capB) capB < daily_loss_limit →
      calculate_weekly_loss_pct
        (reset_weekly_if_needed
          (reset_daily_if_needed (record_trade_result sB nowB pnlB capB) nowB capB)
          nowB capB) capB < weekly_loss_limit →
      (record_trade_result sB nowB pnlB capB).consecutive_losses = 5 ∧
        (can_trade (record_trade_result sB nowB pnlB capB) nowB capB).1 = false ∧
        (can_trade (record_trade_result sB nowB pnlB capB) nowB capB).2.1 =
          CanTradeReason.consecutive_limit ∧
        (can_trade (record_trade_result sB nowB pnlB capB) nowB capB).2.2.status =
          BreakerStatus.PAUSED_CONSECUTIVE ∧
        (can_trade (record_trade_result sB nowB pnlB capB) nowB capB).2.2.pause_until =
          some (nowB + pause_consecutive_hours)) ∧
    (sC.status = BreakerStatus.PAUSED_CONSECUTIVE →
      sC.pause_until = some tC → tC ≤ nowC →
      calculate_daily_loss_pct
        (reset_weekly_if_needed (reset_daily_if_needed sC nowC capC) nowC capC)
        capC < daily_loss_limit →
      calculate_weekly_loss_pct
        (reset_weekly_if_needed (reset_daily_if_needed sC nowC capC) nowC capC)
        capC < weekly_loss_limit →
      (can_trade sC nowC capC).1 = true ∧
        (can_trade sC nowC capC).2.2.status = BreakerStatus.ACTIVE ∧
        (can_trade sC nowC capC).2.2.consecutive_losses = 0) := by
  refine ⟨?_, ?_, ?_⟩
  · intro hst hpu hlt
    have hd := reset_daily_fields sA nowA capA
    have hw := reset_weekly_fields (reset_daily_if_needed sA nowA capA) nowA capA
    set s2 := reset_weekly_if_needed (reset_daily_if_needed sA nowA capA) nowA capA
      with hs2
    have hstat : s2.status = sA.status := by rw [hw.1, hd.1]
    have hpu2 : s2.pause_until = some tA := by rw [hw.2.1, hd.2.1, hpu]
    have hne : ¬ s2.status = BreakerStatus.ACTIVE := by
      rcases hst with h | h | h <;> simp [hstat, h]
    simp only [can_trade, ← hs2]
    simp [hne, hpu2, hlt]
  · intro hpnl hcl hact hdl hwl
    have hrec := record_trade_result_loss sB nowB pnlB capB hpnl
    set sB' := record_trade_result sB nowB pnlB capB with hsB'
    have hcl5 : sB'.consecutive_losses = 5 := by rw [hrec.1, hcl]
    have hstat' : sB'.status = BreakerStatus.ACTIVE := by rw [hrec.2.2.1, hact]
    have hd := reset_daily_fields sB' nowB capB
    have hw := reset_weekly_fields (reset_daily_if_needed sB' nowB capB) nowB capB
    set s2 := reset_weekly_if_needed (reset_daily_if_needed sB' nowB capB) nowB capB
      with hs2
    have hstat2 : s2.status = BreakerStatus.ACTIVE := by rw [hw.1, hd.1, hstat']
    have hcl2 : s2.consecutive_losses = 5 := by rw [hw.2.2.1, hd.2.2.1, hcl5]
    refine ⟨hcl5, ?_⟩
    simp only [can_trade, ← hs2, hstat2, if_true, if_pos rfl]
    simp only [not_le.mpr hdl, not_le.mpr hwl, hcl2, trigger_pause]
    norm_num [max_consecutive_losses]
  · intro hst hpu hle hdl hwl
    have hd := reset_daily_fields sC nowC capC
    have hw := reset_weekly_fields (reset_daily_if_needed sC nowC capC) nowC capC
    set s2 := reset_weekly_if_needed (reset_daily_if_needed sC nowC capC) nowC capC
      with hs2
    have hstat : s2.status = BreakerStatus.PAUSED_CONSECUTIVE := by
      rw [hw.1, hd.1, hst]
    have hpu2 : s2.pause_until = some tC := by rw [hw.2.1, hd.2.1, hpu]
    have hnlt : ¬ nowC < tC := not_lt.mpr hle
    have hdl3 : calculate_daily_loss_pct (reactivate_trading s2) capC <
        daily_loss_limit := by
      simpa [calculate_daily_loss_pct, reactivate_trading] using hdl
    have hwl3 : calculate_weekly_loss_pct (reactivate_trading s2) capC <
        weekly_loss_limit := by
      simpa [calculate_weekly_loss_pct, reactivate_trading] using hwl
    have hr1 : (reactivate_trading s2).consecutive_losses = 0 := rfl
    have hr2 : (reactivate_trading s2).status = BreakerStatus.ACTIVE := rfl
    simp only [can_trade, ← hs2]
    simp [hstat, hpu2, hnlt, not_le.mpr hdl3, not_le.mpr hwl3, hr1, hr2,
      max_consecutive_losses]

/-- Witness for c4_circuit_breaker_pause_cycle: part (a) on a state paused
until hour 10 queried at hour 5; part (b) on an active state with four
consecutive losses recording a fifth loss; part (c) on a state whose pause
expired at hour 3 queried at hour 5.  Capitals are held at the start
capital so no drawdown limit interferes. -/
theorem c4_circuit_breaker_pause_cycle_witness :
    (can_trade
        { status := BreakerStatus.PAUSED_CONSECUTIVE, pause_until := some 10,
          daily_start_capital := 10000, weekly_start_capital := 10000,
          consecutive_losses := 5,
          last_reset_daily := some 5, last_reset_weekly := some 5 }
        5 10000).1 = false ∧
    (can_trade
        (record_trade_result
          { status := BreakerStatus.ACTIVE,
            daily_start_capital := 10000, weekly_start_capital := 10000,
            consecutive_losses := 4,
            last_reset_daily := some 5, last_reset_weekly := some 5 }
          5 (-20) 10000)
        5 10000).2.2.pause_until = some (5 + pause_consecutive_hours) ∧
    (can_trade
        { status := BreakerStatus.PAUSED_CONSECUTIVE, pause_until := some 3,
          daily_start_capital := 10000, weekly_start_capital := 10000,
          consecutive_losses := 5,
          last_reset_daily := some 5, last_reset_weekly := some 5 }
        5 10000).1 = true := by
  have h := c4_circuit_breaker_pause_cycle
    { status := BreakerStatus.PAUSED_CONSECUTIVE, pause_until := some 10,
      daily_start_capital := 10000, weekly_start_capital := 10000,
      consecutive_losses := 5,
      last_reset_daily := some 5, last_reset_weekly := some 5 }
    5 10000 10
    { status := BreakerStatus.ACTIVE,
      daily_start_capital := 10000, weekly_start_capital := 10000,
      consecutive_losses := 4,
      last_reset_daily := some 5, last_reset_weekly := some 5 }
    5 (-20) 10000
    { status := BreakerStatus.PAUSED_CONSECUTIVE, pause_until := some 3,
      daily_start_capital := 10000, weekly_start_capital := 10000,
      consecutive_losses := 5,
      last_reset_daily := some 5, last_reset_weekly := some 5 }
    5 10000 3
  refine ⟨h.1 (by simp) rfl (by norm_num), ?_, ?_⟩
  · refine (h.2.1 (by norm_num) rfl rfl ?_ ?_).2.2.2.2 <;>
      norm_num [record_trade_result, reset_daily_if_needed, reset_weekly_if_needed,
        applyDailyReset, calculate_daily_loss_pct, calculate_weekly_loss_pct,
        dateOf, daily_loss_limit, weekly_loss_limit, Int.floor_zero]
  · refine (h.2.2 rfl rfl (by norm_num) ?_ ?_).1 <;>
      norm_num [reset_daily_if_needed, reset_weekly_if_needed, applyDailyReset,
        calculate_daily_loss_pct, calculate_weekly_loss_pct, dateOf,
        daily_loss_limit, weekly_loss_limit, Int.floor_zero]

theorem record_trade_result_sizing (s : AgentBreakerState) (now pnl cap : ℚ) :
    (record_trade_result s now pnl cap).sizing_multiplier =
      if pnl > 0 then
        if win_streak_bonus_threshold ≤ s.consecutive_wins + 1 then
          win_streak_multiplier
        else s.sizing_multiplier
      else
        if 3 ≤ s.consecutive_losses + 1 then loss_streak_multiplier
        else s.sizing_multiplier := by
  have hd := reset_daily_fields s now (cap + |pnl|)
  by_cases hw : pnl > 0 <;>
    simp only [record_trade_result, hw, decide_True, decide_False, if_true,
      if_false, ite_true, ite_false] <;>
    rw [hd.2.2.2.1, hd.2.2.2.2] <;>
    split_ifs <;>
    simp_all

/-- C10: sizing_multiplier starts at 1.0, is set to 1.2 by
record_trade_result exactly when consecutive wins reach the 5 threshold and
to 0.7 when consecutive losses reach 3, and in every other case the
previous value persists; in particular record_trade_result never restores a
multiplier that is not 1.0 back to 1.0. -/
theorem c10_sizing_multiplier_ratchet (s : AgentBreakerState)
    (now pnl cap init tInit : ℚ) :
    (get_or_create_state init tInit).sizing_multiplier = 1 ∧
    (record_trade_result s now pnl cap).sizing_multiplier =
      (if pnl > 0 then
        if win_streak_bonus_threshold ≤ s.consecutive_wins + 1 then
          win_streak_multiplier
        else s.sizing_multiplier
      else
        if 3 ≤ s.consecutive_losses + 1 then loss_streak_multiplier
        else s.sizing_multiplier) ∧
    (¬ s.sizing_multiplier = 1 →
      ¬ (record_trade_result s now pnl cap).sizing_multiplier = 1) := by
  refine ⟨rfl, record_trade_result_sizing s now pnl cap, ?_⟩
  intro hne
  rw [record_trade_result_sizing s now pnl cap]
  split_ifs <;>
    norm_num [win_streak_multiplier, loss_streak_multiplier] <;>
    exact hne

/-- Witness for c10_sizing_multiplier_ratchet: a winning trade on a state
whose multiplier sits at the 0.7 loss malus and whose streak is broken by
the win leaves the multiplier at 0.7, not 1.0. -/
theorem c10_sizing_multiplier_ratchet_witness :
    (record_trade_result
        { status := BreakerStatus.ACTIVE, consecutive_wins := 0,
          consecutive_losses := 3, sizing_multiplier := 0.7,
          daily_start_capital := 10000, weekly_start_capital := 10000,
          last_reset_daily := some 5, last_reset_weekly := some 5 }
        5 30 10000).sizing_multiplier ≠ 1 := by
  exact (c10_sizing_multiplier_ratchet
    { status := BreakerStatus.ACTIVE, consecutive_wins := 0,
      consecutive_losses := 3, sizing_multiplier := 0.7,
      daily_start_capital := 10000, weekly_start_capital := 10000,
      last_reset_daily := some 5, last_reset_weekly := some 5 }
    5 30 10000 10000 0).2.2 (by norm_num)

/-- C5 counterexample: with default statistics (win rate 0.50, ratio 1.5),
capital 10000, confidence 80, MEDIUM risk, VIX 20 and a NEUTRAL signal, the
clamped fraction is 7/72; the returned position_pct is rounded to 4
decimals (0.0972) while recommended_amount is the unrounded product rounded
to cents (972.22), so recommended_amount differs from
capital * position_pct (972.00). -/
theorem c5_rounding_counterexample :
    ¬ (calculate_position_size (1/2) (3/2) 10000 80 "MEDIUM" 20 "NEUTRAL" 0 0).recommended_amount =
        10000 * (calculate_position_size (1/2) (3/2) 10000 80 "MEDIUM" 20 "NEUTRAL" 0 0).position_pct := by
  have hml : ¬ ("MEDIUM" : String) = "LOW" := by decide
  have hmh : ¬ ("MEDIUM" : String) = "HIGH" := by decide
  have hnb : ¬ (("NEUTRAL" : String) = "BULLISH" ∨
      ("NEUTRAL" : String) = "STRONG_BULLISH") := by decide
  have hns : ¬ (("NEUTRAL" : String) = "BEARISH" ∨
      ("NEUTRAL" : String) = "STRONG_BEARISH") := by decide
  have hexact : position_pct_exact (1/2) (3/2) 80 "MEDIUM" 20 "NEUTRAL" 0 0 = 7/72 := by
    norm_num [position_pct_exact, calculate_kelly_fraction,
      get_dynamic_kelly_multiplier, calculate_confidence_factor,
      calculate_risk_factor, base_kelly_multiplier, vix_low_threshold,
      vix_high_threshold, vix_low_multiplier, vix_high_multiplier,
      win_streak_threshold, loss_streak_threshold, win_streak_bonus,
      loss_streak_malus, min_position_pct, max_position_pct,
      hml, hmh, hnb, hns, max_def, min_def]
  obtain ⟨hpct, hamt⟩ :=
    position_pct_exact_spec (1/2) (3/2) 10000 80 "MEDIUM" 20 "NEUTRAL" 0 0
  rw [hpct, hamt, hexact]
  have hf1 : ⌊(7/72 : ℚ) * 10 ^ 4⌋ = 972 := by
    rw [Int.floor_eq_iff]
    norm_num
  have hf2 : ⌊(10000 * (7/72) : ℚ) * 10 ^ 2⌋ = 97222 := by
    rw [Int.floor_eq_iff]
    norm_num
  norm_num [roundTo, round_half_even, hf1, hf2]

/-- C5 as amended: the returned position_pct lies in [0.01, 0.10] and
equals exactly 0.01 whenever the raw Kelly fraction is not positive;
recommended_amount is capital times the clamped fraction rounded to cents,
and position_pct is that fraction rounded to 4 decimal places (so the two
returned fields satisfy the product relation only up to those roundings). -/
theorem c5_position_bounds (win_rate win_loss_ratio capital : ℚ)
    (confidence : ℤ) (risk_level : String) (vix : ℚ) (sm : String)
    (cw cl : ℕ) :
    (min_position_pct ≤
        (calculate_position_size win_rate win_loss_ratio capital confidence
          risk_level vix sm cw cl).position_pct ∧
      (calculate_position_size win_rate win_loss_ratio capital confidence
          risk_level vix sm cw cl).position_pct ≤ max_position_pct) ∧
    (calculate_kelly_fraction win_rate win_loss_ratio ≤ 0 →
      (calculate_position_size win_rate win_loss_ratio capital confidence
          risk_level vix sm cw cl).position_pct = min_position_pct) ∧
    (calculate_position_size win_rate win_loss_ratio capital confidence
        risk_level vix sm cw cl).recommended_amount =
      roundTo 2 (capital * position_pct_exact win_rate win_loss_ratio
        confidence risk_level vix sm cw cl) := by
  obtain ⟨hpct, hamt⟩ := position_pct_exact_spec win_rate win_loss_ratio capital
    confidence risk_level vix sm cw cl
  obtain ⟨hlo, hhi⟩ := position_pct_exact_bounds win_rate win_loss_ratio
    confidence risk_level vix sm cw cl
  refine ⟨?_, ?_, hamt⟩
  · rw [hpct]
    have := roundTo_mem_Icc (n := 4) (a := min_position_pct)
      (b := max_position_pct) (by norm_num [min_position_pct])
      (by norm_num [max_position_pct]) hlo hhi
    exact this
  · intro hraw
    rw [hpct]
    have hfloor : position_pct_exact win_rate win_loss_ratio confidence
        risk_level vix sm cw cl = min_position_pct := by
      simp only [position_pct_exact, hraw, if_pos]
    rw [hfloor]
    exact roundTo_exact (by norm_num [min_position_pct])

/-- Witness for c5_position_bounds: an agent with win rate 0.30 and ratio
1.0 has raw Kelly −0.40, so the floor case applies and position_pct is
exactly 0.01. -/
theorem c5_position_bounds_witness :
    calculate_kelly_fraction (3/10) 1 ≤ 0 ∧
      (calculate_position_size (3/10) 1 10000 80 "MEDIUM" 20 "NEUTRAL" 0 0).position_pct =
        min_position_pct := by
  have hraw : calculate_kelly_fraction (3/10) 1 ≤ 0 := by
    norm_num [calculate_kelly_fraction]
  exact ⟨hraw,
    (c5_position_bounds (3/10) 1 10000 80 "MEDIUM" 20 "NEUTRAL" 0 0).2.1 hraw⟩

/-- C6: in calculate_risk_factor the test `vix > 25` precedes `vix > 35` in
the same elif chain, so the ×0.5 branch is unreachable: for every VIX above
35 (with MEDIUM risk and a NEUTRAL smart-money signal) the factor is 0.8,
not the 0.5 the specification states. -/
theorem c6_risk_factor_dead_branch (vix : ℚ) (h : 35 < vix) :
    calculate_risk_factor vix "MEDIUM" "NEUTRAL" = 0.8 ∧
      ¬ calculate_risk_factor vix "MEDIUM" "NEUTRAL" = 0.5 := by
  have h25 : vix > 25 := by linarith
  have h15 : ¬ vix < 15 := by linarith
  have hml : ¬ ("MEDIUM" : String) = "LOW" := by decide
  have hmh : ¬ ("MEDIUM" : String) = "HIGH" := by decide
  have hnb : ¬ (("NEUTRAL" : String) = "BULLISH" ∨ ("NEUTRAL" : String) = "STRONG_BULLISH") := by
    decide
  have hns : ¬ (("NEUTRAL" : String) = "BEARISH" ∨ ("NEUTRAL" : String) = "STRONG_BEARISH") := by
    decide
  constructor <;>
    norm_num [calculate_risk_factor, h25, h15, hml, hmh, hnb, hns]

/-- Witness for c6_risk_factor_dead_branch at VIX 40. -/
theorem c6_risk_factor_dead_branch_witness :
    calculate_risk_factor 40 "MEDIUM" "NEUTRAL" = 0.8 := by
  exact (c6_risk_factor_dead_branch 40 (by norm_num)).1

theorem neg_one_le_clamp (x : ℚ) : -1 ≤ max (-1) (min 1 x) :=
  le_max_left _ _

theorem clamp_le_one (x : ℚ) : max (-1) (min 1 x) ≤ 1 :=
  max_le (by norm_num) (min_le_left _ _)

/-- C7 counterexample: on the snapshot with VIX 20 and fear/greed 10 (and
no options, dark-pool or insider section), the BUY sub-score is 0.2 but the
SELL sub-score is 0, not −0.2: the fear/greed component does not flip sign
on SELL, it is simply dropped. -/
theorem c7_sell_negation_counterexample :
    calculate_smart_money_score "BUY"
        { vix := 20, fear_greed_index := 10 } = 1/5 ∧
      calculate_smart_money_score "SELL"
        { vix := 20, fear_greed_index := 10 } = 0 ∧
      ¬ calculate_smart_money_score "SELL"
          { vix := 20, fear_greed_index := 10 } =
        -(calculate_smart_money_score "BUY"
          { vix := 20, fear_greed_index := 10 }) := by
  have hSB : ¬ ("SELL" : String) = "BUY" := by decide
  refine ⟨?_, ?_, ?_⟩ <;>
    norm_num [calculate_smart_money_score, hSB, max_def, min_def]

/-- C7 as amended: the sub-score always lies in [−1, +1], but only the VIX
component changes sign for a SELL decision: the SELL sub-score on a
snapshot equals the negation of the BUY sub-score on the same snapshot with
the fear/greed, put/call, dark-pool and insider axes neutralised (those
components contribute only to BUY decisions). -/
theorem c7_smart_money_score (d d2 : SmartMoneyData) (decision : String) :
    calculate_smart_money_score "SELL" d =
        -(calculate_smart_money_score "BUY" (vixOnly d)) ∧
      -1 ≤ calculate_smart_money_score decision d2 ∧
      calculate_smart_money_score decision d2 ≤ 1 := by
  have hSB : ¬ ("SELL" : String) = "BUY" := by decide
  refine ⟨?_, ?_, ?_⟩
  · simp only [calculate_smart_money_score, vixOnly, hSB, if_false, if_true,
      ite_true, ite_false, eq_self_iff_true]
    norm_num
    rcases d.net_insider_sentiment with _ | net <;>
      rcases d.dark_pool_ratio with _ | dp <;>
      rcases d.put_call_ratio with _ | pc <;>
      split_ifs <;> norm_num
  · simp only [calculate_smart_money_score]
    exact neg_one_le_clamp _
  · simp only [calculate_smart_money_score]
    exact clamp_le_one _

/-- C8 counterexample: at days_until = 0 (earnings today) the code takes
the past-or-today branch and returns MEDIUM risk with multiplier 0.75 and
no buy avoidance, while the claim's `days_until ≤ 3 ⇒ HIGH, avoid, 0.0`
clause demands a HIGH classification. -/
theorem c8_today_counterexample :
    calculate_risk_level 0 = (EarningsRisk.MEDIUM, false, 0.75) ∧
      ¬ calculate_risk_level 0 = (EarningsRisk.HIGH, true, 0) := by
  constructor <;> norm_num [calculate_risk_level]

/-- C8 as amended: the past-or-today branch takes precedence, so the
classification is: −2 ≤ days_until ≤ 0 ⇒ MEDIUM, no avoid, 0.75 (recent
earnings); days_until < −2 ⇒ NONE, no avoid, 1.0; 1 ≤ days_until ≤ 3 ⇒
HIGH, avoid-buy, 0.0; 4–7 ⇒ MEDIUM, no avoid, 0.5; 8–14 ⇒ LOW, no avoid,
0.75; days_until ≥ 15 ⇒ NONE, no avoid, 1.0; and when no earnings date is
known the result is NONE, no avoid, 1.0. -/
theorem c8_earnings_classification (d1 d2 d3 d4 d5 d6 : ℤ)
    (h1a : 1 ≤ d1) (h1b : d1 ≤ 3)
    (h2a : 4 ≤ d2) (h2b : d2 ≤ 7)
    (h3a : 8 ≤ d3) (h3b : d3 ≤ 14)
    (h4 : 15 ≤ d4)
    (h5a : -2 ≤ d5) (h5b : d5 ≤ 0)
    (h6 : d6 < -2) :
    calculate_risk_level d1 = (EarningsRisk.HIGH, true, 0.0) ∧
      calculate_risk_level d2 = (EarningsRisk.MEDIUM, false, 0.5) ∧
      calculate_risk_level d3 = (EarningsRisk.LOW, false, 0.75) ∧
      calculate_risk_level d4 = (EarningsRisk.NONE, false, 1.0) ∧
      calculate_risk_level d5 = (EarningsRisk.MEDIUM, false, 0.75) ∧
      calculate_risk_level d6 = (EarningsRisk.NONE, false, 1.0) ∧
      check_earnings_no_date = (EarningsRisk.NONE, false, 1.0) := by
  refine ⟨?_, ?_, ?_, ?_, ?_, ?_, rfl⟩ <;>
    (unfold calculate_risk_level; split_ifs <;> first | rfl | omega)

/-- Witness for c8_earnings_classification at days_until values 2, 5, 10,
20, 0 and −5. -/
theorem c8_earnings_classification_witness :
    calculate_risk_level 2 = (EarningsRisk.HIGH, true, 0.0) ∧
      calculate_risk_level 0 = (EarningsRisk.MEDIUM, false, 0.75) := by
  have h := c8_earnings_classification 2 5 10 20 0 (-5)
    (by norm_num) (by norm_num) (by norm_num) (by norm_num) (by norm_num)
    (by norm_num) (by norm_num) (by norm_num) (by norm_num) (by norm_num)
  exact ⟨h.1, h.2.2.2.2.1⟩

theorem after_trailing_reason_ne_trailing (el : ExitLevel) (now : ℚ)
    (sm : String) (pnl : ℚ) :
    ¬ (check_exit_conditions.after_trailing el now sm pnl).1.reason =
      ExitReason.TRAILING_STOP := by
  unfold check_exit_conditions.after_trailing
  by_cases h1 : max_holding_days ≤ ⌊(now - el.entry_time) / 24⌋ ∧
      |pnl| < stagnation_threshold_pct <;>
    by_cases h2 : sm = "STRONG_BEARISH" ∧ pnl > 0 <;>
    simp [h1, h2]

theorem check_exit_trailing_activation (el : ExitLevel) (now price : ℚ)
    (sm : String)
    (h : (check_exit_conditions el now price sm).1.reason =
      ExitReason.TRAILING_STOP) :
    trailing_activation_pct ≤ current_pnl_pct_of el price := by
  by_contra hact
  rw [not_le] at hact
  have hge : ¬ current_pnl_pct_of el price ≥ trailing_activation_pct :=
    not_le.mpr hact
  simp only [check_exit_conditions, hge, if_false, ite_false] at h
  split_ifs at h <;>
    first
      | exact after_trailing_reason_ne_trailing _ _ _ _ h
      | simp_all

/-- C9: check_exit_conditions can return a TRAILING_STOP exit only when the
unrealized pnl on that call is at least the +4% activation threshold; below
the threshold no TRAILING_STOP is emitted even when the trailing stop is
already active and the current price is at or below the stored
trailing_stop_price. -/
theorem c9_trailing_stop_requires_activation
    (el1 : ExitLevel) (n1 p1 : ℚ) (s1 : String)
    (el2 : ExitLevel) (n2 p2 pstp : ℚ) (s2 : String)
    (hfire : (check_exit_conditions el1 n1 p1 s1).1.reason =
      ExitReason.TRAILING_STOP)
    (hlow : current_pnl_pct_of el2 p2 < trailing_activation_pct)
    (hactive : el2.trailing_stop_active = true)
    (hstored : el2.trailing_stop_price = some pstp)
    (hbelow : p2 ≤ pstp) :
    trailing_activation_pct ≤ current_pnl_pct_of el1 p1 ∧
      ¬ (check_exit_conditions el2 n2 p2 s2).1.reason =
        ExitReason.TRAILING_STOP := by
  refine ⟨check_exit_trailing_activation el1 n1 p1 s1 hfire, ?_⟩
  intro hc
  exact absurd (check_exit_trailing_activation el2 n2 p2 s2 hc)
    (not_le.mpr hlow)

/-- Witness for c9_trailing_stop_requires_activation: a position entered at
100 (stop-loss 75 at 25%, take-profit 115, highest price seen 108) fires the
trailing stop at price 106 (pnl +6%, trailing stop 106.38); the same
position at price 102 (pnl +2%) emits no TRAILING_STOP even though the
trailing stop is active and 102 is below the stored stop 106.38. -/
theorem c9_trailing_stop_requires_activation_witness :
    trailing_activation_pct ≤ current_pnl_pct_of
        { stop_loss_price := 75, stop_loss_pct := 0.25,
          take_profit_price := 115, take_profit_pct := 0.15,
          trailing_stop_active := true, trailing_stop_price := some 106.38,
          highest_price_seen := 108, entry_time := 0 } 106 ∧
      ¬ (check_exit_conditions
          { stop_loss_price := 75, stop_loss_pct := 0.25,
            take_profit_price := 115, take_profit_pct := 0.15,
            trailing_stop_active := true, trailing_stop_price := some 106.38,
            highest_price_seen := 108, entry_time := 0 }
          0 102 "NEUTRAL").1.reason = ExitReason.TRAILING_STOP := by
  refine c9_trailing_stop_requires_activation
    { stop_loss_price := 75, stop_loss_pct := 0.25,
      take_profit_price := 115, take_profit_pct := 0.15,
      trailing_stop_active := true, trailing_stop_price := some 106.38,
      highest_price_seen := 108, entry_time := 0 } 0 106 "NEUTRAL"
    { stop_loss_price := 75, stop_loss_pct := 0.25,
      take_profit_price := 115, take_profit_pct := 0.15,
      trailing_stop_active := true, trailing_stop_price := some 106.38,
      highest_price_seen := 108, entry_time := 0 } 0 102 106.38 "NEUTRAL"
    ?_ ?_ rfl rfl (by norm_num)
  · norm_num [check_exit_conditions, current_pnl_pct_of, entry_price_of,
      trailing_activation_pct, trailing_distance_pct]
  · norm_num [current_pnl_pct_of, entry_price_of, trailing_activation_pct]

end TradeMe
